import Mathlib

/-!
Verification of the navigation/routing localization subsystem of the
`pgdrive` repository (`pgdrive/scene_creator/vehicle_module/routing_localization.py`,
class `RoutingLocalizationModule`).

The checkpoint tracker, route planner, lane localizer and feature encoder are
embedded as executable Lean definitions.  Road nodes and lanes are abstract
types with decidable equality (the source uses strings and lane objects);
longitudinal offsets and all feature arithmetic use ℚ (the source uses
floats; no claim here depends on rounding).  External collaborators that are
not part of the analysed source (the `norm`/`clip` utilities, numpy's
`rad2deg`, the vehicle's frame projection, lane geometry callbacks and the
road network's shortest-path search) are modelled from the specification and
marked as such in their doc comments.
-/

namespace PGDriveRouting

/-- Class constant `RoutingLocalizationModule.NAVI_POINT_DIST = 50`. -/
def NAVI_POINT_DIST : ℚ := 50

/-- Class constant `RoutingLocalizationModule.PRE_NOTIFY_DIST = 40`. -/
def PRE_NOTIFY_DIST : ℚ := 40

/-- Class constant `RoutingLocalizationModule.CKPT_UPDATE_RANGE = 5`. -/
def CKPT_UPDATE_RANGE : ℚ := 5

/-- Class constant `RoutingLocalizationModule.navigation_info_dim = 10`. -/
def navigation_info_dim : ℕ := 10

/-- The checkpoint-tracking part of the module state: `self.checkpoints`
(the route, a list of road nodes) and `self._target_checkpoints_index`
(always a two-element list in the source, embedded as a pair). -/
structure NavState (α : Type) where
  checkpoints : List α
  target_checkpoints_index : ℕ × ℕ
deriving DecidableEq, Repr

/-- Embedding of `RoutingLocalizationModule._update_target_checkpoints`
(routing_localization.py lines 269-289).  `ego_lane_index` is a lane index
tuple `(start_node, end_node, lane_number)`; the source only reads its first
component.  Returns the new state together with the `should_update` boolean
the source returns.  Python's `self.checkpoints[j:]` is `List.drop j`,
`self.checkpoints[j:-1]` is `(List.drop j).dropLast`, and
`self.checkpoints.index(x, j, -1)` is `j` plus the index of the first
occurrence of `x` in `(List.drop j).dropLast` (an absolute index into the
route, as in Python). -/
def updateTargetCheckpoints {α : Type} [DecidableEq α] (s : NavState α)
    (ego_lane_index : α × α × ℕ) (ego_lane_longitude : ℚ) : NavState α × Bool :=
  if s.target_checkpoints_index.1 = s.target_checkpoints_index.2 then
    (s, false)  -- on last road
  else
    let j := s.target_checkpoints_index.2
    let current_road_start_point := ego_lane_index.1
    if current_road_start_point ∈ s.checkpoints.drop j ∧
        ego_lane_longitude < CKPT_UPDATE_RANGE then
      if current_road_start_point ∈ (s.checkpoints.drop j).dropLast then
        let idx := j + ((s.checkpoints.drop j).dropLast).indexOf current_road_start_point
        if idx + 1 = s.checkpoints.length - 1 then
          ({ s with target_checkpoints_index := (idx, idx) }, true)
        else
          ({ s with target_checkpoints_index := (idx, idx + 1) }, true)
      else
        (s, false)
    else
      (s, false)

/-- Folding a sequence of `_update_target_checkpoints` calls (one per
simulation tick) over the state, discarding the returned booleans. -/
def runUpdates {α : Type} [DecidableEq α] (s : NavState α)
    (inputs : List ((α × α × ℕ) × ℚ)) : NavState α :=
  inputs.foldl (fun t p => (updateTargetCheckpoints t p.1 p.2).1) s

/-- First index at or after which an element occurs, as Python's
`list.index(x, start, stop)` with `stop = -1`: the smallest absolute index
`k` with `start ≤ k < length - 1` holding `x`.  Everything below is proved
about `updateTargetCheckpoints` directly; this section provides the
`List.indexOf` facts those proofs need. -/
theorem indexOf_minimal {α : Type} [DecidableEq α] (l : List α) (x : α) :
    ∀ k : ℕ, k < l.indexOf x → l[k]? ≠ some x := by
  induction l with
  | nil => intro k hk; simp at hk
  | cons a t ih =>
    intro k hk
    by_cases hax : a = x
    · subst hax; rw [List.indexOf_cons_self] at hk; omega
    · rw [List.indexOf_cons_ne t hax] at hk
      cases k with
      | zero => simpa using fun h => hax h
      | succ k => simpa using ih k (by omega)

theorem indexOf_getElem? {α : Type} [DecidableEq α] (l : List α) (x : α)
    (h : x ∈ l) : l[l.indexOf x]? = some x := by
  simpa using List.indexOf_get? h

/-- Lookup into the slice `route[j:-1]` expressed as a lookup into the
route, valid at in-range positions. -/
theorem slice_getElem? {α : Type} (l : List α) (j k : ℕ)
    (hk : k < ((l.drop j).dropLast).length) :
    ((l.drop j).dropLast)[k]? = l[j + k]? := by
  rw [List.length_dropLast] at hk
  rw [List.dropLast_eq_take, List.getElem?_take_of_lt hk, List.getElem?_drop]

theorem idx_lt_route_len {α : Type} [DecidableEq α] (l : List α) (j : ℕ) (x : α)
    (h : x ∈ (l.drop j).dropLast) :
    j + ((l.drop j).dropLast).indexOf x < l.length - 1 := by
  have h1 := List.indexOf_lt_length.mpr h
  rw [List.length_dropLast, List.length_drop] at h1
  omega

/-- `_update_target_checkpoints` never touches `self.checkpoints`. -/
theorem updateTargetCheckpoints_checkpoints {α : Type} [DecidableEq α]
    (s : NavState α) (li : α × α × ℕ) (q : ℚ) :
    ((updateTargetCheckpoints s li q).1).checkpoints = s.checkpoints := by
  simp only [updateTargetCheckpoints]
  split
  · rfl
  split
  · split
    · split <;> rfl
    · rfl
  · rfl

/-- Single-step window monotonicity and bounds for
`_update_target_checkpoints`: under the window invariant, neither index
decreases, the second stays at or above the first, and both stay below
`len(route) - 1`. -/
theorem updateTargetCheckpoints_mono {α : Type} [DecidableEq α]
    (s : NavState α) (li : α × α × ℕ) (q : ℚ)
    (h1 : s.target_checkpoints_index.1 ≤ s.target_checkpoints_index.2)
    (h2 : s.target_checkpoints_index.2 < s.checkpoints.length - 1) :
    s.target_checkpoints_index.1 ≤
      ((updateTargetCheckpoints s li q).1).target_checkpoints_index.1 ∧
    s.target_checkpoints_index.2 ≤
      ((updateTargetCheckpoints s li q).1).target_checkpoints_index.2 ∧
    ((updateTargetCheckpoints s li q).1).target_checkpoints_index.1 ≤
      ((updateTargetCheckpoints s li q).1).target_checkpoints_index.2 ∧
    ((updateTargetCheckpoints s li q).1).target_checkpoints_index.2 <
      s.checkpoints.length - 1 := by
  simp only [updateTargetCheckpoints]
  split
  · exact ⟨le_refl _, le_refl _, h1, h2⟩
  split
  · split
    · rename_i hmem
      have hidx := idx_lt_route_len s.checkpoints s.target_checkpoints_index.2 li.1 hmem
      split <;> simp only <;> omega
    · exact ⟨le_refl _, le_refl _, h1, h2⟩
  · exact ⟨le_refl _, le_refl _, h1, h2⟩

/-- `runUpdates` never touches `self.checkpoints`. -/
theorem runUpdates_checkpoints {α : Type} [DecidableEq α]
    (s : NavState α) (inputs : List ((α × α × ℕ) × ℚ)) :
    (runUpdates s inputs).checkpoints = s.checkpoints := by
  induction inputs generalizing s with
  | nil => rfl
  | cons p rest ih =>
    have hstep := updateTargetCheckpoints_checkpoints s p.1 p.2
    calc (runUpdates s (p :: rest)).checkpoints
        = (runUpdates ((updateTargetCheckpoints s p.1 p.2).1) rest).checkpoints := rfl
      _ = s.checkpoints := by rw [ih, hstep]

/-- Multi-step version of `updateTargetCheckpoints_mono`: over any tick
sequence, the window indices never decrease and the invariant is kept. -/
theorem runUpdates_mono {α : Type} [DecidableEq α]
    (s : NavState α) (inputs : List ((α × α × ℕ) × ℚ))
    (h1 : s.target_checkpoints_index.1 ≤ s.target_checkpoints_index.2)
    (h2 : s.target_checkpoints_index.2 < s.checkpoints.length - 1) :
    s.target_checkpoints_index.1 ≤ (runUpdates s inputs).target_checkpoints_index.1 ∧
    s.target_checkpoints_index.2 ≤ (runUpdates s inputs).target_checkpoints_index.2 ∧
    (runUpdates s inputs).target_checkpoints_index.1 ≤
      (runUpdates s inputs).target_checkpoints_index.2 ∧
    (runUpdates s inputs).target_checkpoints_index.2 < s.checkpoints.length - 1 := by
  induction inputs generalizing s with
  | nil => exact ⟨le_refl _, le_refl _, h1, h2⟩
  | cons p rest ih =>
    have hstep := updateTargetCheckpoints_mono s p.1 p.2 h1 h2
    have hcps := updateTargetCheckpoints_checkpoints s p.1 p.2
    have hrest := ih ((updateTargetCheckpoints s p.1 p.2).1) hstep.2.2.1
      (by rw [hcps]; exact hstep.2.2.2)
    have hrun : runUpdates s (p :: rest) =
        runUpdates ((updateTargetCheckpoints s p.1 p.2).1) rest := rfl
    rw [hrun]
    rw [hcps] at hrest
    exact ⟨le_trans hstep.1 hrest.1, le_trans hstep.2.1 hrest.2.1,
      hrest.2.2.1, hrest.2.2.2⟩

/-- Single-step preservation of the window shape invariant: the second
index is the first plus one, or the window has collapsed on the final
segment index `len(route) - 2`. -/
theorem updateTargetCheckpoints_shape {α : Type} [DecidableEq α]
    (s : NavState α) (li : α × α × ℕ) (q : ℚ)
    (h : s.target_checkpoints_index.2 = s.target_checkpoints_index.1 + 1 ∨
        (s.target_checkpoints_index.2 = s.target_checkpoints_index.1 ∧
         s.target_checkpoints_index.1 = s.checkpoints.length - 2)) :
    ((updateTargetCheckpoints s li q).1).target_checkpoints_index.2 =
      ((updateTargetCheckpoints s li q).1).target_checkpoints_index.1 + 1 ∨
    (((updateTargetCheckpoints s li q).1).target_checkpoints_index.2 =
      ((updateTargetCheckpoints s li q).1).target_checkpoints_index.1 ∧
     ((updateTargetCheckpoints s li q).1).target_checkpoints_index.1 =
      s.checkpoints.length - 2) := by
  simp only [updateTargetCheckpoints]
  split
  · exact h
  split
  · split
    · split
      · rename_i hlast
        right
        dsimp only
        omega
      · left; rfl
    · exact h
  · exact h

/-- Multi-step version of `updateTargetCheckpoints_shape`. -/
theorem runUpdates_shape {α : Type} [DecidableEq α]
    (s : NavState α) (inputs : List ((α × α × ℕ) × ℚ))
    (h : s.target_checkpoints_index.2 = s.target_checkpoints_index.1 + 1 ∨
        (s.target_checkpoints_index.2 = s.target_checkpoints_index.1 ∧
         s.target_checkpoints_index.1 = s.checkpoints.length - 2)) :
    (runUpdates s inputs).target_checkpoints_index.2 =
      (runUpdates s inputs).target_checkpoints_index.1 + 1 ∨
    ((runUpdates s inputs).target_checkpoints_index.2 =
      (runUpdates s inputs).target_checkpoints_index.1 ∧
     (runUpdates s inputs).target_checkpoints_index.1 =
      s.checkpoints.length - 2) := by
  induction inputs generalizing s with
  | nil => exact h
  | cons p rest ih =>
    have hstep := updateTargetCheckpoints_shape s p.1 p.2 h
    have hcps := updateTargetCheckpoints_checkpoints s p.1 p.2
    have hrest := ih ((updateTargetCheckpoints s p.1 p.2).1) (by rw [hcps]; exact hstep)
    rw [hcps] at hrest
    exact hrest

/-- C1: for a route longer than 2 and a non-terminal window whose second
index is `j`, `_update_target_checkpoints(ego_lane_index, ego_lane_longitude)`
changes the window only if the segment start node `ego_lane_index[0]` occurs
in `route[j:]` and `ego_lane_longitude < CKPT_UPDATE_RANGE`; it leaves the
window unchanged if that node does not occur in `route[j:-1]`; otherwise it
sets the first index to the index of that node in `route[j:-1]` (the first
position at or after `j` and before the final node holding it) and the
second index to that plus one, except that when that plus one equals
`len(route) - 1` both indices collapse to it. -/
theorem C1_update_target_checkpoints_transition {α : Type} [DecidableEq α]
    (s : NavState α) (li : α × α × ℕ) (q : ℚ)
    (hlen : 2 < s.checkpoints.length)
    (hnt : s.target_checkpoints_index.1 ≠ s.target_checkpoints_index.2) :
    (((updateTargetCheckpoints s li q).1).target_checkpoints_index ≠
        s.target_checkpoints_index →
      li.1 ∈ s.checkpoints.drop s.target_checkpoints_index.2 ∧
        q < CKPT_UPDATE_RANGE) ∧
    (li.1 ∉ (s.checkpoints.drop s.target_checkpoints_index.2).dropLast →
      (updateTargetCheckpoints s li q).1 = s) ∧
    (li.1 ∈ (s.checkpoints.drop s.target_checkpoints_index.2).dropLast →
      q < CKPT_UPDATE_RANGE →
      ∃ idx : ℕ,
        s.target_checkpoints_index.2 ≤ idx ∧
        idx < s.checkpoints.length - 1 ∧
        s.checkpoints[idx]? = some li.1 ∧
        (∀ k : ℕ, s.target_checkpoints_index.2 ≤ k → k < idx →
          s.checkpoints[k]? ≠ some li.1) ∧
        ((updateTargetCheckpoints s li q).1).target_checkpoints_index =
          (if idx + 1 = s.checkpoints.length - 1 then (idx, idx)
           else (idx, idx + 1))) := by
  simp only [updateTargetCheckpoints, if_neg hnt]
  by_cases hmem : li.1 ∈ (s.checkpoints.drop s.target_checkpoints_index.2).dropLast
  · by_cases hq : q < CKPT_UPDATE_RANGE
    · have hcond : li.1 ∈ s.checkpoints.drop s.target_checkpoints_index.2 ∧
          q < CKPT_UPDATE_RANGE := ⟨List.mem_of_mem_dropLast hmem, hq⟩
      rw [if_pos hcond, if_pos hmem]
      refine ⟨fun _ => hcond, fun hn => absurd hmem hn, fun _ _ => ?_⟩
      refine ⟨s.target_checkpoints_index.2 +
        ((s.checkpoints.drop s.target_checkpoints_index.2).dropLast).indexOf li.1,
        Nat.le_add_right _ _,
        idx_lt_route_len s.checkpoints s.target_checkpoints_index.2 li.1 hmem,
        ?_, ?_, ?_⟩
      · rw [← slice_getElem? s.checkpoints s.target_checkpoints_index.2 _
          (List.indexOf_lt_length.mpr hmem)]
        exact indexOf_getElem? _ _ hmem
      · intro k hk1 hk2
        have hk3 : k - s.target_checkpoints_index.2 <
            ((s.checkpoints.drop s.target_checkpoints_index.2).dropLast).indexOf li.1 := by
          omega
        have hk4 : k - s.target_checkpoints_index.2 <
            ((s.checkpoints.drop s.target_checkpoints_index.2).dropLast).length :=
          lt_trans hk3 (List.indexOf_lt_length.mpr hmem)
        have := indexOf_minimal
          ((s.checkpoints.drop s.target_checkpoints_index.2).dropLast) li.1
          (k - s.target_checkpoints_index.2) hk3
        rw [slice_getElem? s.checkpoints s.target_checkpoints_index.2 _ hk4] at this
        have hjk : s.target_checkpoints_index.2 + (k - s.target_checkpoints_index.2) = k := by
          omega
        rwa [hjk] at this
      · split <;> rfl
    · have hcond : ¬(li.1 ∈ s.checkpoints.drop s.target_checkpoints_index.2 ∧
          q < CKPT_UPDATE_RANGE) := fun hc => hq hc.2
      rw [if_neg hcond]
      exact ⟨fun hne => absurd rfl hne, fun _ => rfl, fun _ hq2 => absurd hq2 hq⟩
  · by_cases hcond : li.1 ∈ s.checkpoints.drop s.target_checkpoints_index.2 ∧
        q < CKPT_UPDATE_RANGE
    · rw [if_pos hcond, if_neg hmem]
      exact ⟨fun hne => absurd rfl hne, fun _ => rfl, fun hm => absurd hm hmem⟩
    · rw [if_neg hcond]
      exact ⟨fun hne => absurd rfl hne, fun _ => rfl, fun hm => absurd hm hmem⟩

/-- C4: for every fixed route of length > 2, over any sequence of
`_update_target_checkpoints` calls starting from window `[0, 1]`, both
window indices are monotonically non-decreasing (comparing any point of the
tick sequence with any later point), the second index is always at least
the first, and both indices stay strictly below `len(route) - 1`; the
window never moves backward. -/
theorem C4_checkpoint_window_monotone {α : Type} [DecidableEq α] (cps : List α)
    (hlen : 2 < cps.length) (inputs extra : List ((α × α × ℕ) × ℚ)) :
    (runUpdates ⟨cps, (0, 1)⟩ inputs).target_checkpoints_index.1 ≤
      (runUpdates (runUpdates ⟨cps, (0, 1)⟩ inputs) extra).target_checkpoints_index.1 ∧
    (runUpdates ⟨cps, (0, 1)⟩ inputs).target_checkpoints_index.2 ≤
      (runUpdates (runUpdates ⟨cps, (0, 1)⟩ inputs) extra).target_checkpoints_index.2 ∧
    (runUpdates ⟨cps, (0, 1)⟩ inputs).target_checkpoints_index.1 ≤
      (runUpdates ⟨cps, (0, 1)⟩ inputs).target_checkpoints_index.2 ∧
    (runUpdates ⟨cps, (0, 1)⟩ inputs).target_checkpoints_index.1 < cps.length - 1 ∧
    (runUpdates ⟨cps, (0, 1)⟩ inputs).target_checkpoints_index.2 < cps.length - 1 := by
  have h2 : (1 : ℕ) < cps.length - 1 := by omega
  have h0 := runUpdates_mono ⟨cps, (0, 1)⟩ inputs (by norm_num) h2
  have hcps := runUpdates_checkpoints (⟨cps, (0, 1)⟩ : NavState α) inputs
  have h1 := runUpdates_mono (runUpdates ⟨cps, (0, 1)⟩ inputs) extra h0.2.2.1
    (by rw [hcps]; exact h0.2.2.2)
  exact ⟨h1.1, h1.2.1, h0.2.2.1, lt_of_le_of_lt h0.2.2.1 h0.2.2.2, h0.2.2.2⟩

/-- C5: once the checkpoint window is terminal (first index equals second
index), `_update_target_checkpoints` returns `False` and leaves the whole
state unchanged, for every lane-index and longitudinal-offset input. -/
theorem C5_terminal_window_frozen {α : Type} [DecidableEq α]
    (s : NavState α) (li : α × α × ℕ) (q : ℚ)
    (h : s.target_checkpoints_index.1 = s.target_checkpoints_index.2) :
    updateTargetCheckpoints s li q = (s, false) := by
  simp only [updateTargetCheckpoints, if_pos h]

/-- C9: after `set_route` (window `[0, 1]`) and after every
`_update_target_checkpoints` call, the second window index equals the first
or the first plus one, and the two indices are equal only when the first
equals `len(route) - 2`: the window collapses exclusively on the final road
segment. -/
theorem C9_window_shape_invariant {α : Type} [DecidableEq α] (cps : List α)
    (hlen : 2 < cps.length) (inputs : List ((α × α × ℕ) × ℚ)) :
    ((runUpdates ⟨cps, (0, 1)⟩ inputs).target_checkpoints_index.2 =
       (runUpdates ⟨cps, (0, 1)⟩ inputs).target_checkpoints_index.1 ∨
     (runUpdates ⟨cps, (0, 1)⟩ inputs).target_checkpoints_index.2 =
       (runUpdates ⟨cps, (0, 1)⟩ inputs).target_checkpoints_index.1 + 1) ∧
    ((runUpdates ⟨cps, (0, 1)⟩ inputs).target_checkpoints_index.1 =
       (runUpdates ⟨cps, (0, 1)⟩ inputs).target_checkpoints_index.2 →
     (runUpdates ⟨cps, (0, 1)⟩ inputs).target_checkpoints_index.1 =
       cps.length - 2) := by
  have h := runUpdates_shape ⟨cps, (0, 1)⟩ inputs (Or.inl rfl)
  rcases h with h | h
  · exact ⟨Or.inr h, fun he => by omega⟩
  · exact ⟨Or.inl h.1, fun _ => h.2⟩

theorem C1_witness :
    2 < (⟨[0, 1, 2, 3], (0, 1)⟩ : NavState ℕ).checkpoints.length ∧
    (⟨[0, 1, 2, 3], (0, 1)⟩ : NavState ℕ).target_checkpoints_index.1 ≠
      (⟨[0, 1, 2, 3], (0, 1)⟩ : NavState ℕ).target_checkpoints_index.2 ∧
    ((((updateTargetCheckpoints (⟨[0, 1, 2, 3], (0, 1)⟩ : NavState ℕ)
          (2, 3, 0) 0).1).target_checkpoints_index ≠
        (⟨[0, 1, 2, 3], (0, 1)⟩ : NavState ℕ).target_checkpoints_index →
      (2 : ℕ) ∈ (⟨[0, 1, 2, 3], (0, 1)⟩ : NavState ℕ).checkpoints.drop
          (⟨[0, 1, 2, 3], (0, 1)⟩ : NavState ℕ).target_checkpoints_index.2 ∧
        (0 : ℚ) < CKPT_UPDATE_RANGE) ∧
    ((2 : ℕ) ∉ ((⟨[0, 1, 2, 3], (0, 1)⟩ : NavState ℕ).checkpoints.drop
        (⟨[0, 1, 2, 3], (0, 1)⟩ : NavState ℕ).target_checkpoints_index.2).dropLast →
      (updateTargetCheckpoints (⟨[0, 1, 2, 3], (0, 1)⟩ : NavState ℕ) (2, 3, 0) 0).1 =
        (⟨[0, 1, 2, 3], (0, 1)⟩ : NavState ℕ)) ∧
    ((2 : ℕ) ∈ ((⟨[0, 1, 2, 3], (0, 1)⟩ : NavState ℕ).checkpoints.drop
        (⟨[0, 1, 2, 3], (0, 1)⟩ : NavState ℕ).target_checkpoints_index.2).dropLast →
      (0 : ℚ) < CKPT_UPDATE_RANGE →
      ∃ idx : ℕ,
        (⟨[0, 1, 2, 3], (0, 1)⟩ : NavState ℕ).target_checkpoints_index.2 ≤ idx ∧
        idx < (⟨[0, 1, 2, 3], (0, 1)⟩ : NavState ℕ).checkpoints.length - 1 ∧
        (⟨[0, 1, 2, 3], (0, 1)⟩ : NavState ℕ).checkpoints[idx]? = some 2 ∧
        (∀ k : ℕ, (⟨[0, 1, 2, 3], (0, 1)⟩ : NavState ℕ).target_checkpoints_index.2 ≤ k →
          k < idx → (⟨[0, 1, 2, 3], (0, 1)⟩ : NavState ℕ).checkpoints[k]? ≠ some 2) ∧
        (((updateTargetCheckpoints (⟨[0, 1, 2, 3], (0, 1)⟩ : NavState ℕ)
            (2, 3, 0) 0).1).target_checkpoints_index =
          (if idx + 1 = (⟨[0, 1, 2, 3], (0, 1)⟩ : NavState ℕ).checkpoints.length - 1
           then (idx, idx) else (idx, idx + 1))))) :=
  ⟨by decide, by decide,
    C1_update_target_checkpoints_transition (⟨[0, 1, 2, 3], (0, 1)⟩ : NavState ℕ)
      (2, 3, 0) 0 (by decide) (by decide)⟩

theorem C4_witness :
    2 < ([0, 1, 2, 3] : List ℕ).length ∧
    ((runUpdates (⟨[0, 1, 2, 3], (0, 1)⟩ : NavState ℕ)
        [((2, 3, 0), (0 : ℚ))]).target_checkpoints_index.1 ≤
      (runUpdates (runUpdates (⟨[0, 1, 2, 3], (0, 1)⟩ : NavState ℕ)
        [((2, 3, 0), (0 : ℚ))]) [((9, 9, 9), (0 : ℚ))]).target_checkpoints_index.1 ∧
    (runUpdates (⟨[0, 1, 2, 3], (0, 1)⟩ : NavState ℕ)
        [((2, 3, 0), (0 : ℚ))]).target_checkpoints_index.2 ≤
      (runUpdates (runUpdates (⟨[0, 1, 2, 3], (0, 1)⟩ : NavState ℕ)
        [((2, 3, 0), (0 : ℚ))]) [((9, 9, 9), (0 : ℚ))]).target_checkpoints_index.2 ∧
    (runUpdates (⟨[0, 1, 2, 3], (0, 1)⟩ : NavState ℕ)
        [((2, 3, 0), (0 : ℚ))]).target_checkpoints_index.1 ≤
      (runUpdates (⟨[0, 1, 2, 3], (0, 1)⟩ : NavState ℕ)
        [((2, 3, 0), (0 : ℚ))]).target_checkpoints_index.2 ∧
    (runUpdates (⟨[0, 1, 2, 3], (0, 1)⟩ : NavState ℕ)
        [((2, 3, 0), (0 : ℚ))]).target_checkpoints_index.1 <
      ([0, 1, 2, 3] : List ℕ).length - 1 ∧
    (runUpdates (⟨[0, 1, 2, 3], (0, 1)⟩ : NavState ℕ)
        [((2, 3, 0), (0 : ℚ))]).target_checkpoints_index.2 <
      ([0, 1, 2, 3] : List ℕ).length - 1) :=
  ⟨by decide,
    C4_checkpoint_window_monotone ([0, 1, 2, 3] : List ℕ) (by decide)
      [((2, 3, 0), (0 : ℚ))] [((9, 9, 9), (0 : ℚ))]⟩

theorem C5_witness :
    (⟨[0, 1, 2], (1, 1)⟩ : NavState ℕ).target_checkpoints_index.1 =
      (⟨[0, 1, 2], (1, 1)⟩ : NavState ℕ).target_checkpoints_index.2 ∧
    updateTargetCheckpoints (⟨[0, 1, 2], (1, 1)⟩ : NavState ℕ) (0, 1, 0) 0 =
      ((⟨[0, 1, 2], (1, 1)⟩ : NavState ℕ), false) :=
  ⟨rfl, C5_terminal_window_frozen (⟨[0, 1, 2], (1, 1)⟩ : NavState ℕ) (0, 1, 0) 0 rfl⟩

theorem C9_witness :
    2 < ([0, 1, 2, 3] : List ℕ).length ∧
    (((runUpdates (⟨[0, 1, 2, 3], (0, 1)⟩ : NavState ℕ)
        [((2, 3, 0), (0 : ℚ))]).target_checkpoints_index.2 =
       (runUpdates (⟨[0, 1, 2, 3], (0, 1)⟩ : NavState ℕ)
        [((2, 3, 0), (0 : ℚ))]).target_checkpoints_index.1 ∨
     (runUpdates (⟨[0, 1, 2, 3], (0, 1)⟩ : NavState ℕ)
        [((2, 3, 0), (0 : ℚ))]).target_checkpoints_index.2 =
       (runUpdates (⟨[0, 1, 2, 3], (0, 1)⟩ : NavState ℕ)
        [((2, 3, 0), (0 : ℚ))]).target_checkpoints_index.1 + 1) ∧
    ((runUpdates (⟨[0, 1, 2, 3], (0, 1)⟩ : NavState ℕ)
        [((2, 3, 0), (0 : ℚ))]).target_checkpoints_index.1 =
       (runUpdates (⟨[0, 1, 2, 3], (0, 1)⟩ : NavState ℕ)
        [((2, 3, 0), (0 : ℚ))]).target_checkpoints_index.2 →
     (runUpdates (⟨[0, 1, 2, 3], (0, 1)⟩ : NavState ℕ)
        [((2, 3, 0), (0 : ℚ))]).target_checkpoints_index.1 =
       ([0, 1, 2, 3] : List ℕ).length - 2)) :=
  ⟨by decide,
    C9_window_shape_invariant ([0, 1, 2, 3] : List ℕ) (by decide)
      [((2, 3, 0), (0 : ℚ))]⟩

/-- Modelled from the spec: the `pgdrive.utils.clip` helper (repository code
not under the analysed sources); clamps `a` into `[low, high]`. -/
def clip (a low high : ℚ) : ℚ :=
  if a < low then low else if a > high then high else a

/-- Modelled from the spec: `ego_vehicle.projection` (vehicle code not under
the analysed sources) projects a world-frame vector into the vehicle's
heading-relative frame via dot products with the heading direction
`(headingX, headingY)` and the corresponding side direction. -/
def projection (headingX headingY : ℚ) (v : ℚ × ℚ) : ℚ × ℚ :=
  (v.1 * headingX + v.2 * headingY, v.1 * headingY - v.2 * headingX)

/-- Lane geometry shape of a reference lane as consumed by
`_get_info_for_checkpoint`: straight, or circular with radius, start/end
phase and turn direction (`CircularLane.direction` is `+1` or `-1` in the
source, kept as ℤ). -/
inductive LaneKind where
  | straight : LaneKind
  | circular (radius start_phase end_phase : ℚ) (direction : ℤ) : LaneKind
deriving DecidableEq, Repr

/-- A reference lane: length, the geometry callbacks the encoder calls
(`position`, `heading_at`, `local_coordinates` are external lane-geometry
collaborators, modelled as function fields) and its shape. -/
structure RefLane where
  length : ℚ
  position : ℚ → ℚ → ℚ × ℚ
  heading_at : ℚ → ℚ
  local_coordinates : ℚ × ℚ → ℚ × ℚ
  kind : LaneKind

/-- Numeric context of the encoder: the block parameter-space constants
`BlockParameterSpace.CURVE[Parameter.radius].max` and
`BlockParameterSpace.CURVE[Parameter.angle].max`, the map's lane width, and
two external numeric collaborators modelled as function parameters since
they are repository code not under the analysed sources: `pgdrive.utils.norm`
(Euclidean magnitude, per the spec) and numpy's `rad2deg`. -/
structure NaviConfig where
  curve_radius_max : ℚ
  curve_angle_max : ℚ
  lane_width : ℚ
  normFn : ℚ → ℚ → ℚ
  rad2deg : ℚ → ℚ

/-- The ego-vehicle data the encoder reads: world position and heading
direction (consumed by the modelled `projection`). -/
structure Ego where
  position : ℚ × ℚ
  headingX : ℚ
  headingY : ℚ

/-- Embedding of routing_localization.py lines 218-221: the direction
vector from vehicle to checkpoint is rescaled to magnitude
`NAVI_POINT_DIST` when the computed norm exceeds it, otherwise kept. -/
def clampDirVec (cfg : NaviConfig) (dir_vec : ℚ × ℚ) : ℚ × ℚ :=
  let dir_norm := cfg.normFn dir_vec.1 dir_vec.2
  if dir_norm > NAVI_POINT_DIST then
    (dir_vec.1 / dir_norm * NAVI_POINT_DIST, dir_vec.2 / dir_norm * NAVI_POINT_DIST)
  else dir_vec

/-- Embedding of routing_localization.py lines 223-235: bend radius, turn
direction and signed arc angle of the reference lane; all three stay zero
for non-circular lanes. -/
def laneCurveInfo (cfg : NaviConfig) (lane_num : ℕ) : LaneKind → ℚ × ℚ × ℚ
  | .straight => (0, 0, 0)
  | .circular radius start_phase end_phase direction =>
      (radius / (cfg.curve_radius_max + (lane_num : ℚ) * cfg.lane_width),
       (direction : ℚ),
       if direction = 1 then end_phase - start_phase
       else if direction = -1 then start_phase - end_phase
       else 0)

/-- Embedding of `RoutingLocalizationModule._get_info_for_checkpoint`
(routing_localization.py lines 209-241).  `lanes.head?` is `lanes[0]`
(`none` models the `IndexError` on an empty lane list); `lane_num` is
`self.get_current_lane_num()`, the lane count of `current_ref_lanes`.
Returns the 5 normalized scalars together with `lanes_heading` and
`check_point`. -/
def getInfoForCheckpoint (cfg : NaviConfig) (lanes_id : ℕ) (lanes : List RefLane)
    (ego : Ego) (lane_num : ℕ) : Option (List ℚ × ℚ × (ℚ × ℚ)) :=
  match lanes.head? with
  | none => none
  | some ref_lane =>
    let later_middle := ((lane_num : ℚ) / 2 - 1 / 2) * cfg.lane_width
    let check_point := ref_lane.position ref_lane.length later_middle
    let lanes_heading :=
      if lanes_id = 0 then
        ref_lane.heading_at (ref_lane.local_coordinates ego.position).1
      else
        ref_lane.heading_at (min PRE_NOTIFY_DIST ref_lane.length)
    let dir_vec : ℚ × ℚ :=
      (check_point.1 - ego.position.1, check_point.2 - ego.position.2)
    let dir_vec2 := clampDirVec cfg dir_vec
    let pr := projection ego.headingX ego.headingY dir_vec2
    let cinfo := laneCurveInfo cfg lane_num ref_lane.kind
    some ([clip ((pr.1 / NAVI_POINT_DIST + 1) / 2) 0 1,
           clip ((pr.2 / NAVI_POINT_DIST + 1) / 2) 0 1,
           clip cinfo.1 0 1,
           clip ((cinfo.2.1 + 1) / 2) 0 1,
           clip ((cfg.rad2deg cinfo.2.2 / cfg.curve_angle_max + 1) / 2) 0 1],
          lanes_heading, check_point)

/-- `self._navi_info` right after construction or `set_route`: filled with
zeros, length `navigation_info_dim`. -/
def initNaviInfo : List ℚ := List.replicate navigation_info_dim 0

/-- The `_navi_info` writes of `update_navigation_localization`
(routing_localization.py lines 185-193): the first half comes from
checkpoint 1, the second half from checkpoint 2, and both calls use
`get_current_lane_num()` over `current_ref_lanes = target_lanes_1`.
`none` models the `IndexError` raised on an empty lane list. -/
def updateNaviInfo (cfg : NaviConfig) (target_lanes_1 target_lanes_2 : List RefLane)
    (ego : Ego) : Option (List ℚ) :=
  match getInfoForCheckpoint cfg 0 target_lanes_1 ego target_lanes_1.length,
        getInfoForCheckpoint cfg 1 target_lanes_2 ego target_lanes_1.length with
  | some i1, some i2 => some (i1.1 ++ i2.1)
  | _, _ => none

theorem clip_unit_mem (a : ℚ) : 0 ≤ clip a 0 1 ∧ clip a 0 1 ≤ 1 := by
  unfold clip
  split_ifs with h1 h2
  · norm_num
  · norm_num
  · exact ⟨not_lt.mp h1, not_lt.mp h2⟩

/-- Each checkpoint's 5-tuple has length 5 and all entries in `[0, 1]`. -/
theorem getInfoForCheckpoint_bounds (cfg : NaviConfig) (lanes_id : ℕ)
    (lanes : List RefLane) (ego : Ego) (lane_num : ℕ)
    (out : List ℚ × ℚ × (ℚ × ℚ))
    (h : getInfoForCheckpoint cfg lanes_id lanes ego lane_num = some out) :
    out.1.length = 5 ∧ ∀ x ∈ out.1, 0 ≤ x ∧ x ≤ 1 := by
  cases lanes with
  | nil => simp [getInfoForCheckpoint] at h
  | cons rl rest =>
    simp only [getInfoForCheckpoint, List.head?, Option.some.injEq] at h
    subst h
    refine ⟨rfl, ?_⟩
    intro x hx
    simp only [List.mem_cons, List.not_mem_nil, or_false] at hx
    rcases hx with rfl | rfl | rfl | rfl | rfl <;> exact clip_unit_mem _

/-- C2: `get_navi_info()` always returns a vector of length
`navigation_info_dim = 10`; after construction or `set_route` it is all
zeros (hence within `[0, 1]`), and after any successful
`update_navigation_localization` every element lies in `[0, 1]`, the vector
being the concatenation of the two checkpoints' clamped 5-scalar
contributions. -/
theorem C2_navi_info_bounds :
    (initNaviInfo.length = navigation_info_dim ∧
      ∀ x ∈ initNaviInfo, 0 ≤ x ∧ x ≤ 1) ∧
    ∀ (cfg : NaviConfig) (l1 l2 : List RefLane) (ego : Ego) (v : List ℚ),
      updateNaviInfo cfg l1 l2 ego = some v →
      v.length = navigation_info_dim ∧
      (∀ x ∈ v, 0 ≤ x ∧ x ≤ 1) ∧
      ∃ i1 i2,
        getInfoForCheckpoint cfg 0 l1 ego l1.length = some i1 ∧
        getInfoForCheckpoint cfg 1 l2 ego l1.length = some i2 ∧
        v = i1.1 ++ i2.1 := by
  constructor
  · refine ⟨rfl, ?_⟩
    intro x hx
    rw [List.eq_of_mem_replicate hx]
    norm_num
  · intro cfg l1 l2 ego v h
    unfold updateNaviInfo at h
    cases h1 : getInfoForCheckpoint cfg 0 l1 ego l1.length with
    | none =>
      cases h2 : getInfoForCheckpoint cfg 1 l2 ego l1.length <;>
        rw [h1, h2] at h <;> exact Option.noConfusion h
    | some i1 =>
      cases h2 : getInfoForCheckpoint cfg 1 l2 ego l1.length with
      | none => rw [h1, h2] at h; exact Option.noConfusion h
      | some i2 =>
        rw [h1, h2] at h
        simp only [Option.some.injEq] at h
        subst h
        have b1 := getInfoForCheckpoint_bounds cfg 0 l1 ego l1.length i1 h1
        have b2 := getInfoForCheckpoint_bounds cfg 1 l2 ego l1.length i2 h2
        refine ⟨?_, ?_, ?_⟩
        · rw [List.length_append, b1.1, b2.1]; decide
        · intro x hx
          rcases List.mem_append.mp hx with hx | hx
          · exact b1.2 x hx
          · exact b2.2 x hx
        · exact ⟨i1, i2, rfl, rfl, rfl⟩

/-- C7: whenever the computed distance from the vehicle to the checkpoint
exceeds `NAVI_POINT_DIST`, the direction vector is rescaled to magnitude
exactly `NAVI_POINT_DIST` preserving its direction, so the clamped
projected vector equals `NAVI_POINT_DIST / original_distance` times the
unclamped projected vector in both components (exactly, over ℚ); when the
distance is at most `NAVI_POINT_DIST` the vector is unchanged. -/
theorem C7_dir_vec_clamp (cfg : NaviConfig) (v : ℚ × ℚ) (hx hy : ℚ)
    (hnormsq : cfg.normFn v.1 v.2 ^ 2 = v.1 ^ 2 + v.2 ^ 2)
    (hnormnn : 0 ≤ cfg.normFn v.1 v.2) :
    (NAVI_POINT_DIST < cfg.normFn v.1 v.2 →
      ((clampDirVec cfg v).1 ^ 2 + (clampDirVec cfg v).2 ^ 2 =
          NAVI_POINT_DIST ^ 2 ∧
       projection hx hy (clampDirVec cfg v) =
         (NAVI_POINT_DIST / cfg.normFn v.1 v.2 * (projection hx hy v).1,
          NAVI_POINT_DIST / cfg.normFn v.1 v.2 * (projection hx hy v).2))) ∧
    (cfg.normFn v.1 v.2 ≤ NAVI_POINT_DIST → clampDirVec cfg v = v) := by
  constructor
  · intro hgt
    have hd : cfg.normFn v.1 v.2 ≠ 0 := by
      have h50 : (0 : ℚ) < NAVI_POINT_DIST := by norm_num [NAVI_POINT_DIST]
      exact ne_of_gt (lt_trans h50 hgt)
    simp only [clampDirVec, gt_iff_lt, if_pos hgt]
    constructor
    · have expand : (v.1 / cfg.normFn v.1 v.2 * NAVI_POINT_DIST) ^ 2 +
          (v.2 / cfg.normFn v.1 v.2 * NAVI_POINT_DIST) ^ 2 =
          (v.1 ^ 2 + v.2 ^ 2) / cfg.normFn v.1 v.2 ^ 2 * NAVI_POINT_DIST ^ 2 := by
        ring
      rw [expand, ← hnormsq, div_self (pow_ne_zero 2 hd), one_mul]
    · simp only [projection, Prod.mk.injEq]
      constructor <;> ring
  · intro hle
    simp only [clampDirVec, gt_iff_lt, if_neg (not_lt.mpr hle)]

/-- C8: for a circular reference lane `_get_info_for_checkpoint` computes
`bendradius = radius / (max_curve_radius_constant + lane_count * lane_width)`,
`direction` equal to the lane's turn sense, and `angle = end_phase -
start_phase` for direction `+1` and `start_phase - end_phase` for `-1`;
for a straight lane all three are zero; and for direction `+1` with phase
difference `end_phase - start_phase` the fifth emitted scalar equals
`clip((rad2deg(end_phase - start_phase) / max_curve_angle_constant + 1) / 2, 0, 1)`. -/
theorem C8_curve_encoding (cfg : NaviConfig) (lane_num : ℕ)
    (radius start_phase end_phase : ℚ) :
    laneCurveInfo cfg lane_num (LaneKind.circular radius start_phase end_phase 1) =
      (radius / (cfg.curve_radius_max + (lane_num : ℚ) * cfg.lane_width), 1,
        end_phase - start_phase) ∧
    laneCurveInfo cfg lane_num (LaneKind.circular radius start_phase end_phase (-1)) =
      (radius / (cfg.curve_radius_max + (lane_num : ℚ) * cfg.lane_width), -1,
        start_phase - end_phase) ∧
    laneCurveInfo cfg lane_num LaneKind.straight = (0, 0, 0) ∧
    (∀ (lanes : List RefLane) (ego : Ego) (rl : RefLane)
        (out : List ℚ × ℚ × (ℚ × ℚ)),
      lanes.head? = some rl →
      rl.kind = LaneKind.circular radius start_phase end_phase 1 →
      getInfoForCheckpoint cfg 0 lanes ego lane_num = some out →
      out.1[4]? = some (clip
        ((cfg.rad2deg (end_phase - start_phase) / cfg.curve_angle_max + 1) / 2)
        0 1)) := by
  refine ⟨?_, ?_, rfl, ?_⟩
  · norm_num [laneCurveInfo]
  · norm_num [laneCurveInfo]
  · intro lanes ego rl out hhead hkind hout
    cases lanes with
    | nil => exact Option.noConfusion hhead
    | cons rl0 rest =>
      simp only [List.head?, Option.some.injEq] at hhead
      subst hhead
      simp only [getInfoForCheckpoint, List.head?, Option.some.injEq] at hout
      subst hout
      simp only [hkind, laneCurveInfo]
      norm_num

/-- A concrete encoder context used by the evaluation witnesses. -/
def sampleCfg : NaviConfig :=
  { curve_radius_max := 1, curve_angle_max := 1, lane_width := 1,
    normFn := fun _ _ => 0, rad2deg := fun x => x }

/-- A concrete straight reference lane used by the evaluation witnesses. -/
def sampleLane : RefLane :=
  { length := 1, position := fun _ _ => (0, 0), heading_at := fun _ => 0,
    local_coordinates := fun _ => (0, 0), kind := LaneKind.straight }

/-- A concrete circular reference lane used by the evaluation witnesses. -/
def sampleCircLane : RefLane :=
  { length := 1, position := fun _ _ => (0, 0), heading_at := fun _ => 0,
    local_coordinates := fun _ => (0, 0),
    kind := LaneKind.circular 1 0 1 1 }

/-- A concrete ego vehicle used by the evaluation witnesses. -/
def sampleEgo : Ego := { position := (0, 0), headingX := 1, headingY := 0 }

/-- A concrete encoder context whose `normFn` returns 100 on the witness
vector, used by the clamping witness. -/
def normCfg : NaviConfig :=
  { curve_radius_max := 1, curve_angle_max := 1, lane_width := 1,
    normFn := fun _ _ => 100, rad2deg := fun x => x }

theorem C2_witness :
    updateNaviInfo sampleCfg [sampleLane] [sampleLane] sampleEgo =
      some [1/2, 1/2, 0, 1/2, 1/2, 1/2, 1/2, 0, 1/2, 1/2] ∧
    ([1/2, 1/2, 0, 1/2, 1/2, 1/2, 1/2, 0, 1/2, 1/2] : List ℚ).length =
      navigation_info_dim ∧
    ∀ x ∈ ([1/2, 1/2, 0, 1/2, 1/2, 1/2, 1/2, 0, 1/2, 1/2] : List ℚ),
      0 ≤ x ∧ x ≤ 1 :=
  ⟨by norm_num [updateNaviInfo, getInfoForCheckpoint, clampDirVec, projection,
      laneCurveInfo, clip, sampleCfg, sampleLane, sampleEgo, NAVI_POINT_DIST],
   (C2_navi_info_bounds.2 sampleCfg [sampleLane] [sampleLane] sampleEgo
     [1/2, 1/2, 0, 1/2, 1/2, 1/2, 1/2, 0, 1/2, 1/2]
     (by norm_num [updateNaviInfo, getInfoForCheckpoint, clampDirVec, projection,
        laneCurveInfo, clip, sampleCfg, sampleLane, sampleEgo, NAVI_POINT_DIST])).1,
   (C2_navi_info_bounds.2 sampleCfg [sampleLane] [sampleLane] sampleEgo
     [1/2, 1/2, 0, 1/2, 1/2, 1/2, 1/2, 0, 1/2, 1/2]
     (by norm_num [updateNaviInfo, getInfoForCheckpoint, clampDirVec, projection,
        laneCurveInfo, clip, sampleCfg, sampleLane, sampleEgo, NAVI_POINT_DIST])).2.1⟩

theorem C7_witness :
    normCfg.normFn 60 80 ^ 2 = (60 : ℚ) ^ 2 + (80 : ℚ) ^ 2 ∧
    (0 : ℚ) ≤ normCfg.normFn 60 80 ∧
    ((NAVI_POINT_DIST < normCfg.normFn 60 80 →
      ((clampDirVec normCfg (60, 80)).1 ^ 2 + (clampDirVec normCfg (60, 80)).2 ^ 2 =
          NAVI_POINT_DIST ^ 2 ∧
       projection 1 0 (clampDirVec normCfg (60, 80)) =
         (NAVI_POINT_DIST / normCfg.normFn 60 80 * (projection 1 0 (60, 80)).1,
          NAVI_POINT_DIST / normCfg.normFn 60 80 * (projection 1 0 (60, 80)).2))) ∧
     (normCfg.normFn 60 80 ≤ NAVI_POINT_DIST →
       clampDirVec normCfg (60, 80) = (60, 80))) :=
  ⟨by norm_num [normCfg], by norm_num [normCfg],
   C7_dir_vec_clamp normCfg (60, 80) 1 0 (by norm_num [normCfg])
     (by norm_num [normCfg])⟩

theorem C8_witness :
    laneCurveInfo sampleCfg 1 (LaneKind.circular 1 0 1 1) =
      (1 / (sampleCfg.curve_radius_max + ((1 : ℕ) : ℚ) * sampleCfg.lane_width), 1,
        1 - 0) ∧
    [sampleCircLane].head? = some sampleCircLane ∧
    sampleCircLane.kind = LaneKind.circular 1 0 1 1 ∧
    getInfoForCheckpoint sampleCfg 0 [sampleCircLane] sampleEgo 1 =
      some ([1/2, 1/2, 1/2, 1, 1], 0, (0, 0)) ∧
    ([1/2, 1/2, 1/2, 1, 1] : List ℚ)[4]? =
      some (clip
        ((sampleCfg.rad2deg (1 - 0) / sampleCfg.curve_angle_max + 1) / 2) 0 1) :=
  ⟨(C8_curve_encoding sampleCfg 1 1 0 1).1, rfl, rfl,
   by norm_num [getInfoForCheckpoint, clampDirVec, projection, laneCurveInfo,
     clip, sampleCfg, sampleCircLane, sampleEgo, NAVI_POINT_DIST],
   (C8_curve_encoding sampleCfg 1 1 0 1).2.2.2 [sampleCircLane] sampleEgo
     sampleCircLane ([1/2, 1/2, 1/2, 1, 1], 0, (0, 0)) rfl rfl
     (by norm_num [getInfoForCheckpoint, clampDirVec, projection, laneCurveInfo,
       clip, sampleCfg, sampleCircLane, sampleEgo, NAVI_POINT_DIST])⟩

/-- Embedding of the for-loop of `RoutingLocalizationModule.get_current_lane`
(routing_localization.py lines 330-332): scan the ray hits in order and
return the first whose lane lies in `current_ref_lanes`. -/
def getCurrentLaneLoop {L I : Type} [DecidableEq L] (current_ref_lanes : List L) :
    List (L × I × ℚ) → Option (L × I)
  | [] => none
  | (lane, index, _) :: rest =>
    if lane ∈ current_ref_lanes then some (lane, index)
    else getCurrentLaneLoop current_ref_lanes rest

/-- Embedding of `RoutingLocalizationModule.get_current_lane`
(routing_localization.py lines 326-333).  `possible_lanes` is the ordered
result of the external `ray_localization` query (lane, lane index, hit
distance, nearest first).  After the loop the fallback is
`possible_lanes[0][:-1]` when there is any hit, else `(None, None)`;
`Option` models the `None` pair. -/
def getCurrentLane {L I : Type} [DecidableEq L] (current_ref_lanes : List L)
    (possible_lanes : List (L × I × ℚ)) : Option (L × I) :=
  match getCurrentLaneLoop current_ref_lanes possible_lanes with
  | some r => some r
  | none =>
    match possible_lanes with
    | [] => none
    | hit :: _ => some (hit.1, hit.2.1)

/-- The loop is `List.find?` on lane membership, keeping lane and index. -/
theorem getCurrentLaneLoop_eq_find? {L I : Type} [DecidableEq L]
    (refs : List L) (hits : List (L × I × ℚ)) :
    getCurrentLaneLoop refs hits =
      (hits.find? (fun h => decide (h.1 ∈ refs))).map (fun h => (h.1, h.2.1)) := by
  induction hits with
  | nil => rfl
  | cons h t ih =>
    obtain ⟨lane, index, d⟩ := h
    by_cases hmem : lane ∈ refs
    · simp [getCurrentLaneLoop, hmem]
    · simp [getCurrentLaneLoop, hmem, ih]

/-- C6: for every ordered list of ray-cast hits, `get_current_lane` returns
the (lane, lane index) of the first hit whose lane belongs to
`current_ref_lanes`; if no hit's lane belongs to it, the (lane, lane index)
of the first (nearest) hit; and with no hits at all, `(None, None)`. -/
theorem C6_get_current_lane {L I : Type} [DecidableEq L]
    (refs : List L) (hits : List (L × I × ℚ)) :
    (hits = [] → getCurrentLane refs hits = none) ∧
    (∀ h0, hits.find? (fun h => decide (h.1 ∈ refs)) = some h0 →
      getCurrentLane refs hits = some (h0.1, h0.2.1)) ∧
    (hits.find? (fun h => decide (h.1 ∈ refs)) = none →
      ∀ h0 rest, hits = h0 :: rest →
        getCurrentLane refs hits = some (h0.1, h0.2.1)) := by
  refine ⟨?_, ?_, ?_⟩
  · intro h; subst h; rfl
  · intro h0 hfind
    unfold getCurrentLane
    rw [getCurrentLaneLoop_eq_find?, hfind]
    rfl
  · intro hfind h0 rest hcons
    unfold getCurrentLane
    rw [getCurrentLaneLoop_eq_find?, hfind, hcons]
    rfl

theorem C6_witness :
    (([] : List (ℕ × ℕ × ℚ)) = [] →
      getCurrentLane [5] ([] : List (ℕ × ℕ × ℚ)) = none) ∧
    (([(1, 10, 0), (5, 11, 0)] : List (ℕ × ℕ × ℚ)).find?
        (fun h => decide (h.1 ∈ [5])) = some (5, 11, 0) ∧
      getCurrentLane [5] ([(1, 10, 0), (5, 11, 0)] : List (ℕ × ℕ × ℚ)) =
        some (5, 11)) ∧
    (([(1, 10, 0), (2, 12, 0)] : List (ℕ × ℕ × ℚ)).find?
        (fun h => decide (h.1 ∈ [5])) = none ∧
      getCurrentLane [5] ([(1, 10, 0), (2, 12, 0)] : List (ℕ × ℕ × ℚ)) =
        some (1, 10)) :=
  ⟨(C6_get_current_lane [5] ([] : List (ℕ × ℕ × ℚ))).1,
   ⟨by rfl, (C6_get_current_lane [5] _).2.1 (5, 11, 0) (by rfl)⟩,
   ⟨by rfl, (C6_get_current_lane [5] _).2.2 (by rfl) (1, 10, 0) [(2, 12, 0)] rfl⟩⟩

/-- Embedding of the four route lookups of `update_navigation_localization`
(routing_localization.py lines 176-179): `checkpoints[i]`,
`checkpoints[i + 1]`, `checkpoints[j]` and `checkpoints[j + 1]` for window
`[i, j]`; `none` models Python's `IndexError`. -/
def updateNavigationTargets {α : Type} (s : NavState α) :
    Option ((α × α) × (α × α)) :=
  match s.checkpoints[s.target_checkpoints_index.1]?,
        s.checkpoints[s.target_checkpoints_index.1 + 1]?,
        s.checkpoints[s.target_checkpoints_index.2]?,
        s.checkpoints[s.target_checkpoints_index.2 + 1]? with
  | some a, some b, some c, some d => some ((a, b), (c, d))
  | _, _, _, _ => none

/-- C10: with route length > 2 and the window invariant (both indices below
`len(route) - 1`, second index equal to the first or the first plus one),
all four route lookups of `update_navigation_localization` are in bounds,
so the index-error branch is unreachable — including the terminal window
where the last lookup hits position `len(route) - 1`. -/
theorem C10_target_accesses_in_bounds {α : Type} (s : NavState α)
    (hlen : 2 < s.checkpoints.length)
    (hi : s.target_checkpoints_index.1 < s.checkpoints.length - 1)
    (hj : s.target_checkpoints_index.2 < s.checkpoints.length - 1)
    (hshape : s.target_checkpoints_index.2 = s.target_checkpoints_index.1 ∨
      s.target_checkpoints_index.2 = s.target_checkpoints_index.1 + 1) :
    ∃ a b c d, updateNavigationTargets s = some ((a, b), (c, d)) ∧
      s.checkpoints[s.target_checkpoints_index.1]? = some a ∧
      s.checkpoints[s.target_checkpoints_index.1 + 1]? = some b ∧
      s.checkpoints[s.target_checkpoints_index.2]? = some c ∧
      s.checkpoints[s.target_checkpoints_index.2 + 1]? = some d := by
  have h1 : s.target_checkpoints_index.1 < s.checkpoints.length := by omega
  have h2 : s.target_checkpoints_index.1 + 1 < s.checkpoints.length := by omega
  have h3 : s.target_checkpoints_index.2 < s.checkpoints.length := by omega
  have h4 : s.target_checkpoints_index.2 + 1 < s.checkpoints.length := by omega
  refine ⟨s.checkpoints.get ⟨_, h1⟩, s.checkpoints.get ⟨_, h2⟩,
    s.checkpoints.get ⟨_, h3⟩, s.checkpoints.get ⟨_, h4⟩, ?_, ?_, ?_, ?_, ?_⟩
  · unfold updateNavigationTargets
    rw [List.getElem?_eq_getElem h1, List.getElem?_eq_getElem h2,
      List.getElem?_eq_getElem h3, List.getElem?_eq_getElem h4]
    rfl
  · exact List.getElem?_eq_getElem h1
  · exact List.getElem?_eq_getElem h2
  · exact List.getElem?_eq_getElem h3
  · exact List.getElem?_eq_getElem h4

theorem C10_witness :
    2 < (⟨[0, 1, 2, 3], (2, 2)⟩ : NavState ℕ).checkpoints.length ∧
    (⟨[0, 1, 2, 3], (2, 2)⟩ : NavState ℕ).target_checkpoints_index.1 <
      (⟨[0, 1, 2, 3], (2, 2)⟩ : NavState ℕ).checkpoints.length - 1 ∧
    (⟨[0, 1, 2, 3], (2, 2)⟩ : NavState ℕ).target_checkpoints_index.2 <
      (⟨[0, 1, 2, 3], (2, 2)⟩ : NavState ℕ).checkpoints.length - 1 ∧
    ((⟨[0, 1, 2, 3], (2, 2)⟩ : NavState ℕ).target_checkpoints_index.2 =
        (⟨[0, 1, 2, 3], (2, 2)⟩ : NavState ℕ).target_checkpoints_index.1 ∨
      (⟨[0, 1, 2, 3], (2, 2)⟩ : NavState ℕ).target_checkpoints_index.2 =
        (⟨[0, 1, 2, 3], (2, 2)⟩ : NavState ℕ).target_checkpoints_index.1 + 1) ∧
    ∃ a b c d,
      updateNavigationTargets (⟨[0, 1, 2, 3], (2, 2)⟩ : NavState ℕ) =
        some ((a, b), (c, d)) ∧
      (⟨[0, 1, 2, 3], (2, 2)⟩ : NavState ℕ).checkpoints[
        (⟨[0, 1, 2, 3], (2, 2)⟩ : NavState ℕ).target_checkpoints_index.1]? = some a ∧
      (⟨[0, 1, 2, 3], (2, 2)⟩ : NavState ℕ).checkpoints[
        (⟨[0, 1, 2, 3], (2, 2)⟩ : NavState ℕ).target_checkpoints_index.1 + 1]? = some b ∧
      (⟨[0, 1, 2, 3], (2, 2)⟩ : NavState ℕ).checkpoints[
        (⟨[0, 1, 2, 3], (2, 2)⟩ : NavState ℕ).target_checkpoints_index.2]? = some c ∧
      (⟨[0, 1, 2, 3], (2, 2)⟩ : NavState ℕ).checkpoints[
        (⟨[0, 1, 2, 3], (2, 2)⟩ : NavState ℕ).target_checkpoints_index.2 + 1]? = some d :=
  ⟨by decide, by decide, by decide, Or.inl rfl,
   C10_target_accesses_in_bounds (⟨[0, 1, 2, 3], (2, 2)⟩ : NavState ℕ)
     (by decide) (by decide) (by decide) (Or.inl rfl)⟩

/-- The road-network interface consumed by `set_route`.  `shortest_path` is
modelled from the spec: `RoadNetwork.shortest_path` is repository code not
under the analysed sources; per the spec it returns the ordered node
sequence of a shortest path, taken empty (length < 3) when no path exists.
`graph start end` is the ordered list of parallel lanes of road
`(start, end)` (`Road.get_lanes` delegates to this mapping, per the spec's
RoadNetwork data model). -/
structure RoadNetwork (α L : Type) where
  shortest_path : α → α → List α
  graph : α → α → List L

/-- The module fields assigned by `set_route`
(routing_localization.py lines 144-160). `dest_marker_ref_lane` records the
reference lane `final_lanes[0]` of line 157, the one the destination-marker
placement (`self._dest_node_path.setPos`) uses. -/
structure RouteState (α L : Type) where
  checkpoints : List α
  final_road : α × α
  final_lane : Option L
  target_checkpoints_index : ℕ × ℕ
  navi_info : List ℚ
  current_ref_lanes : List L
  current_road : α × α
  dest_marker_ref_lane : Option L

/-- Embedding of `RoutingLocalizationModule.set_route`
(routing_localization.py lines 137-160).  `Except.error` models the failed
`assert len(self.checkpoints) > 2`; `final_lane = final_lanes[-1]` is
`getLast?` and the destination-marker reference lane `final_lanes[0]` is
`head?` (`none` modelling the `IndexError` on an empty lane list). -/
def setRoute {α L : Type} (net : RoadNetwork α L)
    (start_road_node end_road_node : α) : Except String (RouteState α L) :=
  let checkpoints := net.shortest_path start_road_node end_road_node
  if h : 2 < checkpoints.length then
    let final_road := (checkpoints.get ⟨checkpoints.length - 2, by omega⟩,
      end_road_node)
    let final_lanes := net.graph final_road.1 final_road.2
    Except.ok
      { checkpoints := checkpoints
        final_road := final_road
        final_lane := final_lanes.getLast?
        target_checkpoints_index := (0, 1)
        navi_info := List.replicate navigation_info_dim 0
        current_ref_lanes := net.graph (checkpoints.get ⟨0, by omega⟩)
          (checkpoints.get ⟨1, by omega⟩)
        current_road := (checkpoints.get ⟨0, by omega⟩,
          checkpoints.get ⟨1, by omega⟩)
        dest_marker_ref_lane := final_lanes.head? }
  else
    Except.error "Can not find a route"

/-- A concrete road network whose final road carries two parallel lanes. -/
def exNet : RoadNetwork ℕ ℕ :=
  { shortest_path := fun _ _ => [0, 1, 2]
    graph := fun s e => if s = 1 ∧ e = 2 then [10, 11] else [] }

/-- C3 counterexample: on a network whose terminal road carries two
parallel lanes, `set_route` sets `final_lane` to the last lane (11) while
the destination marker is placed from `final_lanes[0]` (lane 10), so the
stored final lane is not the lane used for destination-marker placement,
contradicting the claim's final clause. -/
theorem C3_counterexample :
    (Except.toOption (setRoute exNet 0 2)).map
        (fun r => (r.final_lane, r.dest_marker_ref_lane)) =
      some (some 11, some 10) ∧
    (setRoute exNet 0 2).toOption.map (fun r => r.final_lane) ≠
      (setRoute exNet 0 2).toOption.map (fun r => r.dest_marker_ref_lane) := by
  constructor
  · rfl
  · intro h
    simp only [setRoute, exNet] at h
    exact absurd (Option.some.inj h) (by decide)

/-- C3 (amended): `set_route(start, end)` raises if and only if the
shortest path returned by the road network has fewer than 3 nodes (the
no-path case yielding such a short path); on success it stores the path as
the route, resets the checkpoint window to `[0, 1]`, fills the feature
vector with zeros, sets `final_road = (route[-2], end)` and `final_lane`
to the last parallel lane of that road, while the destination marker is
placed using the first parallel lane of that road. -/
theorem C3_set_route_spec {α L : Type} (net : RoadNetwork α L) (s e : α) :
    (2 < (net.shortest_path s e).length ↔
      ∃ r, setRoute net s e = Except.ok r) ∧
    ∀ r, setRoute net s e = Except.ok r →
      r.checkpoints = net.shortest_path s e ∧
      r.target_checkpoints_index = (0, 1) ∧
      r.navi_info = List.replicate navigation_info_dim 0 ∧
      r.final_road.2 = e ∧
      r.checkpoints[r.checkpoints.length - 2]? = some r.final_road.1 ∧
      r.final_lane = (net.graph r.final_road.1 e).getLast? ∧
      r.dest_marker_ref_lane = (net.graph r.final_road.1 e).head? := by
  by_cases hlen : 2 < (net.shortest_path s e).length
  · simp only [setRoute, dif_pos hlen]
    constructor
    · exact ⟨fun _ => ⟨_, rfl⟩, fun _ => hlen⟩
    · intro r hr
      rw [Except.ok.injEq] at hr
      subst hr
      refine ⟨rfl, rfl, rfl, rfl, ?_, rfl, rfl⟩
      show (net.shortest_path s e)[(net.shortest_path s e).length - 2]? = _
      rw [List.getElem?_eq_getElem (by omega)]
      rfl
  · simp only [setRoute, dif_neg hlen]
    constructor
    · constructor
      · intro hlt; exact absurd hlt hlen
      · rintro ⟨r, hr⟩; exact Except.noConfusion hr
    · intro r hr; exact Except.noConfusion hr

/-- The record `set_route` produces on `exNet`. -/
def exRoute : RouteState ℕ ℕ :=
  { checkpoints := [0, 1, 2]
    final_road := (1, 2)
    final_lane := some 11
    target_checkpoints_index := (0, 1)
    navi_info := List.replicate navigation_info_dim 0
    current_ref_lanes := []
    current_road := (0, 1)
    dest_marker_ref_lane := some 10 }

theorem C3_witness :
    setRoute exNet 0 2 = Except.ok exRoute ∧
    (exRoute.checkpoints = exNet.shortest_path 0 2 ∧
     exRoute.target_checkpoints_index = (0, 1) ∧
     exRoute.navi_info = List.replicate navigation_info_dim 0 ∧
     exRoute.final_road.2 = 2 ∧
     exRoute.checkpoints[exRoute.checkpoints.length - 2]? =
       some exRoute.final_road.1 ∧
     exRoute.final_lane = (exNet.graph exRoute.final_road.1 2).getLast? ∧
     exRoute.dest_marker_ref_lane = (exNet.graph exRoute.final_road.1 2).head?) :=
  ⟨by rfl, (C3_set_route_spec exNet 0 2).2 exRoute (by rfl)⟩
